import Mathlib

/-!
# Triton (Manta) gateway: error handling of the object layer

A shallow embedding of `cmd/gateway-triton.go` and `cmd/gateway-triton-anonymous.go`.

Go functions returning `(value, error)` are embedded as functions returning a pair whose
second component is an `Option GoError` (`none` is Go's `nil` error).  Pointers that may
be `nil` (`*http.Response`, `http.Header`) are `Option`s.  The libraries the code calls
(`net/http`, `io/ioutil`, `encoding/xml`, the triton-go storage client) are parameters.
-/

namespace Triton

/-! ## Errors -/

/-- The type `storage.AzureStorageServiceError` of the Azure SDK (an imported library type).
The code under study sets `StatusCode`, `Code` and `Message`; the remaining fields are
filled in by `xml.Unmarshal` only. -/
structure AzureStorageServiceError where
  Code : String := ""
  Message : String := ""
  AuthenticationErrorDetail : String := ""
  QueryParameterName : String := ""
  QueryParameterValue : String := ""
  Reason : String := ""
  StatusCode : Int := 0
  RequestID : String := ""
deriving DecidableEq, Repr

/-- Values of Go's `error` interface that occur in the two files.

* `lib msg`: an error value produced by a library call (`http.NewRequest`, `Client.Do`,
  `ioutil.ReadAll`, `xml.Unmarshal`, the triton-go client);
* `azure e`: a `storage.AzureStorageServiceError` value;
* `NotImplemented`: the value `NotImplemented{}` of package `cmd`;
* `traced e`: the `*Error` built by `traceError` around `e`. -/
inductive GoError where
  | lib (msg : String)
  | azure (e : AzureStorageServiceError)
  | NotImplemented
  | traced (e : GoError)
deriving DecidableEq, Repr

/-- Modelled from the spec: `traceError` is declared elsewhere in package `cmd` (its file is
not among the sources).  The spec's taxonomy has one `NotImplemented` error per failed call;
`traceError` keeps `nil` as `nil` and wraps any other error, keeping it as the cause. -/
def traceError : Option GoError → Option GoError
  | none => none
  | some e => some (GoError.traced e)

/-- Modelled from the spec: `errorCause` is declared elsewhere in package `cmd`; it gives
back the error that `traceError` wrapped. -/
def errorCause : GoError → GoError
  | GoError.traced e => errorCause e
  | e => e

/-- An error value is a NotImplemented error when its cause is `NotImplemented{}`. -/
def isNotImplemented (err : Option GoError) : Bool :=
  match err with
  | some e => decide (errorCause e = GoError.NotImplemented)
  | none => false

/-! ## net/http, io/ioutil, encoding/xml -/

/-- Bytes of a body or of object content (`[]byte`). -/
abbrev Bytes := List UInt8

/-- The type `http.Header`, `map[string][]string`. -/
abbrev Header := List (String × List String)

/-- An `io.Reader` seen through `ioutil.ReadAll`: the bytes it delivers and the error, if
any, that ends the read. -/
structure Reader where
  data : Bytes := []
  readErr : Option GoError := none
deriving DecidableEq, Repr

/-- `ioutil.ReadAll`: the bytes read and the read error, `nil` at a clean end of input. -/
def ReadAll (r : Reader) : Bytes × Option GoError :=
  (r.data, r.readErr)

/-- The fields of `http.Request` set by `http.NewRequest(verb, urlStr, nil)` and by the
code. -/
structure Request where
  Method : String
  URL : String
  Header : Header := []
deriving DecidableEq, Repr

/-- The fields of `http.Response` the code reads. -/
structure Response where
  Status : String
  StatusCode : Int
  Header : Header := []
  Body : Reader := {}
deriving DecidableEq, Repr

/-- The library calls made by `tritonAnonRequest`, as parameters: `http.NewRequest`,
`http.DefaultClient.Do` and `xml.Unmarshal` into an `AzureStorageServiceError`. -/
structure HTTPEnv where
  NewRequest : String → String → Except GoError Request
  Do : Request → Except GoError Response
  xmlUnmarshal : Bytes → AzureStorageServiceError → Except GoError AzureStorageServiceError

/-- The statement `if header != nil { req.Header = header }`. -/
def setHeader (req : Request) (header : Option Header) : Request :=
  match header with
  | some h => { req with Header := h }
  | none => req

/-- The function `tritonAnonRequest` of gateway-triton-anonymous.go (lines 29-68).  The
deferred `resp.Body.Close()` releases the body of a response that is not returned. -/
def tritonAnonRequest (env : HTTPEnv) (verb urlStr : String) (header : Option Header) :
    Option Response × Option GoError :=
  match env.NewRequest verb urlStr with
  | Except.error err => (none, some err)
  | Except.ok req =>
    match env.Do (setHeader req header) with
    | Except.error err => (none, some err)
    | Except.ok resp =>
      -- 4XX and 5XX are error HTTP codes.
      if resp.StatusCode ≥ 400 ∧ resp.StatusCode ≤ 511 then
        match ReadAll resp.Body with
        | (_, some err) => (none, some err)
        | (respBody, none) =>
          if respBody.length = 0 then
            (none, some (GoError.azure
              { StatusCode := resp.StatusCode
                Code := resp.Status
                Message := "no response body was available for error status code" }))
          else
            match env.xmlUnmarshal respBody {} with
            | Except.error err => (none, some err)
            | Except.ok storageErr =>
              (none, some (GoError.azure { storageErr with StatusCode := resp.StatusCode }))
      else
        (some resp, none)

/-! ## Object layer data -/

/-- Modelled from the spec: the type `BucketInfo` is declared elsewhere in package `cmd`.
The spec's data model gives a bucket a name and a creation time. -/
structure BucketInfo where
  Name : String := ""
  Created : Int := 0
deriving DecidableEq, Repr

/-- Modelled from the spec: the type `ObjectInfo` is declared elsewhere in package `cmd`.
The spec's data model gives an object a bucket, a key, a size, a content type, an ETag,
user metadata (a mapping of string to string) and a last-modified time.  The default
values are Go's zero value `ObjectInfo{}`. -/
structure ObjectInfo where
  Bucket : String := ""
  Name : String := ""
  ModTime : Int := 0
  Size : Int := 0
  ETag : String := ""
  ContentType : String := ""
  UserDefined : List (String × String) := []
deriving DecidableEq, Repr

/-- Modelled from the spec: the type `PartInfo` is declared elsewhere in package `cmd`.
The spec records for a part its number, its size and its content checksum.  The default
values are Go's zero value. -/
structure PartInfo where
  PartNumber : Int := 0
  LastModified : Int := 0
  ETag : String := ""
  Size : Int := 0
deriving DecidableEq, Repr

/-- Modelled from the spec: the type `completePart` is declared elsewhere in package `cmd`.
Completion is called with a list of (part number, checksum) pairs. -/
structure completePart where
  PartNumber : Int
  ETag : String
deriving DecidableEq, Repr

/-! ## The backend client -/

/-- The type `storage.PutDirectoryInput` of triton-go, with the field the code sets. -/
structure PutDirectoryInput where
  DirectoryName : String
deriving DecidableEq, Repr

/-- A request issued to the backend through the storage client. -/
inductive BackendCall where
  | DirPut (input : PutDirectoryInput)
deriving DecidableEq, Repr

/-- The triton-go `storage.StorageClient`, as a parameter: `Dir().Put` acts on a backend
state of type `σ` and returns an error or `nil`. -/
structure StorageClient (σ : Type) where
  DirPut : PutDirectoryInput → σ → Option GoError × σ

/-- What the gateway acts on: the state of the backend and the log of the requests issued
to it, oldest first. -/
structure World (σ : Type) where
  backend : σ
  calls : List BackendCall := []

/-- The call `client.Dir().Put(ctx, input)`: one request to the backend, logged. -/
def StorageClient.DirPutCall {σ : Type} (c : StorageClient σ) (input : PutDirectoryInput)
    (w : World σ) : Option GoError × World σ :=
  let r := c.DirPut input w.backend
  (r.1, { backend := r.2, calls := w.calls ++ [BackendCall.DirPut input] })

/-- The type `tritonObjects`: the object layer for Triton Manta storage. -/
structure tritonObjects (σ : Type) where
  client : StorageClient σ

/-! ## gateway-triton.go -/

/-- The method `MakeBucketWithLocation` (lines 86-96). -/
def tritonObjects.MakeBucketWithLocation {σ : Type} (t : tritonObjects σ)
    (bucket _location : String) (w : World σ) : Option GoError × World σ :=
  let r := t.client.DirPutCall { DirectoryName := "~~/stor/" ++ bucket } w
  match r.1 with
  | some err => (some err, r.2)
  | none => (none, r.2)

/-- The method `ListBuckets` (lines 109-111): the named results, never assigned. -/
def tritonObjects.ListBuckets {σ : Type} (_a : tritonObjects σ) (w : World σ) :
    (List BucketInfo × Option GoError) × World σ :=
  (([], none), w)

/-- The method `DeleteBucket` (lines 117-119). -/
def tritonObjects.DeleteBucket {σ : Type} (_a : tritonObjects σ) (_bucket : String)
    (w : World σ) : Option GoError × World σ :=
  (none, w)

/-- The method `GetObject` (lines 147-149).  The `io.Writer` is the bytes written to it so
far; the method returns it as it leaves it. -/
def tritonObjects.GetObject {σ : Type} (_a : tritonObjects σ) (_bucket _object : String)
    (_startOffset _length : Int) (writer : Bytes) (w : World σ) :
    (Option GoError × Bytes) × World σ :=
  ((none, writer), w)

/-- The method `GetObjectInfo` (lines 155-157). -/
def tritonObjects.GetObjectInfo {σ : Type} (_a : tritonObjects σ) (_bucket _object : String)
    (w : World σ) : (ObjectInfo × Option GoError) × World σ :=
  (({}, none), w)

/-- The method `PutObject` (lines 163-165). -/
def tritonObjects.PutObject {σ : Type} (_a : tritonObjects σ) (_bucket _object : String)
    (_size : Int) (_data : Reader) (_metadata : List (String × String)) (_sha256sum : String)
    (w : World σ) : (ObjectInfo × Option GoError) × World σ :=
  (({}, none), w)

/-- The method `DeleteObject` (lines 176-178). -/
def tritonObjects.DeleteObject {σ : Type} (_a : tritonObjects σ) (_bucket _object : String)
    (w : World σ) : Option GoError × World σ :=
  (none, w)

/-- The method `NewMultipartUpload` (lines 188-190). -/
def tritonObjects.NewMultipartUpload {σ : Type} (_a : tritonObjects σ)
    (_bucket _object : String) (_metadata : List (String × String)) (w : World σ) :
    (String × Option GoError) × World σ :=
  (("", none), w)

/-- The method `PutObjectPart` (lines 192-194). -/
def tritonObjects.PutObjectPart {σ : Type} (_a : tritonObjects σ)
    (_bucket _object _uploadID : String) (_partID : Int) (_size : Int) (_data : Reader)
    (_md5Hex _sha256sum : String) (w : World σ) : (PartInfo × Option GoError) × World σ :=
  (({}, none), w)

/-- The method `CompleteMultipartUpload` (lines 204-206). -/
def tritonObjects.CompleteMultipartUpload {σ : Type} (_a : tritonObjects σ)
    (_bucket _object _uploadID : String) (_uploadedParts : List completePart) (w : World σ) :
    (ObjectInfo × Option GoError) × World σ :=
  (({}, none), w)

/-- The method `CopyObjectPart` (lines 209-211). -/
def tritonObjects.CopyObjectPart {σ : Type} (_a : tritonObjects σ)
    (_srcBucket _srcObject _destBucket _destObject _uploadID : String) (_partID : Int)
    (_startOffset _length : Int) (w : World σ) : (PartInfo × Option GoError) × World σ :=
  (({}, traceError (some GoError.NotImplemented)), w)

/-! ## gateway-triton-anonymous.go -/

/-- The method `AnonPutObject` (lines 77-80). -/
def tritonObjects.AnonPutObject {σ : Type} (_a : tritonObjects σ) (_bucket _object : String)
    (_size : Int) (_data : Reader) (_metadata : List (String × String)) (_sha256sum : String)
    (w : World σ) : (ObjectInfo × Option GoError) × World σ :=
  (({}, traceError (some GoError.NotImplemented)), w)

/-! ## Concrete inputs -/

/-- A backend that keeps the list of its directories: every directory put succeeds. -/
def dirBackend : StorageClient (List String) where
  DirPut := fun input dirs => (none, dirs ++ [input.DirectoryName])

/-- A backend on which every directory put is refused. -/
def refusingBackend : StorageClient (List String) where
  DirPut := fun _ dirs => (some (GoError.lib "AuthorizationFailed"), dirs)

/-- The object layer over `dirBackend`. -/
def dirGateway : tritonObjects (List String) where
  client := dirBackend

/-- The world before any request: no directory, no call. -/
def emptyWorld : World (List String) where
  backend := []

/-- The bytes of `hello`. -/
def helloBytes : Bytes := [104, 101, 108, 108, 111]

/-- The bytes of `oops`, which is not XML. -/
def oopsBytes : Bytes := [111, 111, 112, 115]

/-- A transport on which every exchange succeeds with the response `resp`, and an XML
decoder that rejects every body. -/
def replyEnv (resp : Response) : HTTPEnv where
  NewRequest := fun verb urlStr => Except.ok { Method := verb, URL := urlStr }
  Do := fun _ => Except.ok resp
  xmlUnmarshal := fun _ _ => Except.error (GoError.lib "EOF")

/-- A transport on which every exchange succeeds with the response `resp`, and an XML
decoder that finds the error code `InternalError` in every body. -/
def replyEnvXML (resp : Response) : HTTPEnv where
  NewRequest := fun verb urlStr => Except.ok { Method := verb, URL := urlStr }
  Do := fun _ => Except.ok resp
  xmlUnmarshal := fun _ e => Except.ok { e with Code := "InternalError" }

/-- A response with status 512 and an empty body. -/
def resp512Empty : Response where
  Status := "512 status code 512"
  StatusCode := 512

/-- A response with status 520 whose body is not XML. -/
def resp520Oops : Response where
  Status := "520 status code 520"
  StatusCode := 520
  Body := { data := oopsBytes }

/-- A response with status 599 and a body. -/
def resp599 : Response where
  Status := "599 status code 599"
  StatusCode := 599
  Body := { data := helloBytes }

/-- A response with status 404 and an empty body, as a HEAD request gets. -/
def resp404Empty : Response where
  Status := "404 Not Found"
  StatusCode := 404

/-- A response with status 503 whose body is not XML. -/
def resp503Oops : Response where
  Status := "503 Service Unavailable"
  StatusCode := 503
  Body := { data := oopsBytes }

/-- The world after bucket `b1` was made on `dirBackend`. -/
def worldB1 : World (List String) :=
  (dirGateway.MakeBucketWithLocation "b1" "" emptyWorld).2

/-- The world after `hello` was put as object `k1` of bucket `b1` with the metadata
`x-custom=v`. -/
def worldPutK1 : World (List String) :=
  (dirGateway.PutObject "b1" "k1" 5 { data := helloBytes } [("x-custom", "v")] "" worldB1).2

/-- The world after a multipart upload of `b1/k2` was started and its part 1 was
uploaded under the upload ID that `NewMultipartUpload` returned. -/
def worldPart1 : World (List String) :=
  (dirGateway.PutObjectPart "b1" "k2"
    (dirGateway.NewMultipartUpload "b1" "k2" [] worldB1).1.1 1 2 { data := [65, 65] } "" ""
    (dirGateway.NewMultipartUpload "b1" "k2" [] worldB1).2).2

/-! ## tritonAnonRequest -/

/-- Within the range the code tests (400 to 511), a response whose body reads as empty
yields no response and an `AzureStorageServiceError` that carries the status code, the
status line and the message for a missing body. -/
theorem tritonAnonRequest_empty_body (env : HTTPEnv) (verb urlStr : String)
    (header : Option Header) (req : Request) (resp : Response)
    (hreq : env.NewRequest verb urlStr = Except.ok req)
    (hdo : env.Do (setHeader req header) = Except.ok resp)
    (hlo : 400 ≤ resp.StatusCode) (hhi : resp.StatusCode ≤ 511)
    (hbody : ReadAll resp.Body = ([], none)) :
    tritonAnonRequest env verb urlStr header =
      (none, some (GoError.azure
        { StatusCode := resp.StatusCode
          Code := resp.Status
          Message := "no response body was available for error status code" })) := by
  simp [tritonAnonRequest, hreq, hdo, hlo, hhi, hbody]

/-- An instance of `tritonAnonRequest_empty_body`: status 404 with an empty body. -/
theorem tritonAnonRequest_empty_body_witness :
    tritonAnonRequest (replyEnv resp404Empty) "HEAD" "https://us-east.manta.joyent.com/u" none =
      (none, some (GoError.azure
        { StatusCode := 404
          Code := "404 Not Found"
          Message := "no response body was available for error status code" })) :=
  tritonAnonRequest_empty_body (replyEnv resp404Empty) "HEAD"
    "https://us-east.manta.joyent.com/u" none
    { Method := "HEAD", URL := "https://us-east.manta.joyent.com/u" } resp404Empty
    rfl rfl (by decide) (by decide) rfl

/-- Within the range the code tests (400 to 511), a response whose non-empty body is
rejected by the XML decoder yields no response and the decoder's error. -/
theorem tritonAnonRequest_malformed_body (env : HTTPEnv) (verb urlStr : String)
    (header : Option Header) (req : Request) (resp : Response) (body : Bytes) (e : GoError)
    (hreq : env.NewRequest verb urlStr = Except.ok req)
    (hdo : env.Do (setHeader req header) = Except.ok resp)
    (hlo : 400 ≤ resp.StatusCode) (hhi : resp.StatusCode ≤ 511)
    (hbody : ReadAll resp.Body = (body, none)) (hne : body ≠ [])
    (hxml : env.xmlUnmarshal body {} = Except.error e) :
    tritonAnonRequest env verb urlStr header = (none, some e) := by
  simp [tritonAnonRequest, hreq, hdo, hlo, hhi, hbody, hne, hxml]

/-- An instance of `tritonAnonRequest_malformed_body`: status 503 with the body `oops`. -/
theorem tritonAnonRequest_malformed_body_witness :
    tritonAnonRequest (replyEnv resp503Oops) "GET" "https://us-east.manta.joyent.com/u" none =
      (none, some (GoError.lib "EOF")) :=
  tritonAnonRequest_malformed_body (replyEnv resp503Oops) "GET"
    "https://us-east.manta.joyent.com/u" none
    { Method := "GET", URL := "https://us-east.manta.joyent.com/u" } resp503Oops oopsBytes
    (GoError.lib "EOF") rfl rfl (by decide) (by decide) rfl (by decide) rfl

/-- Every response with a status code from 400 to 511 yields an error and no response. -/
theorem tritonAnonRequest_error_range (env : HTTPEnv) (verb urlStr : String)
    (header : Option Header) (req : Request) (resp : Response)
    (hreq : env.NewRequest verb urlStr = Except.ok req)
    (hdo : env.Do (setHeader req header) = Except.ok resp)
    (hlo : 400 ≤ resp.StatusCode) (hhi : resp.StatusCode ≤ 511) :
    (tritonAnonRequest env verb urlStr header).1 = none ∧
      (tritonAnonRequest env verb urlStr header).2 ≠ none := by
  simp only [tritonAnonRequest, hreq, hdo]
  rw [if_pos ⟨hlo, hhi⟩]
  rcases hb : ReadAll resp.Body with ⟨body, _ | rerr⟩
  · by_cases hlen : body.length = 0
    · simp [hlen]
    · simp only [hlen, if_false]
      cases env.xmlUnmarshal body {} <;> simp
  · simp

/-- Every response with a status code above 511, the codes 512 to 599 among them, is
returned as it is, with a nil error, whatever its body. -/
theorem tritonAnonRequest_above_511 (env : HTTPEnv) (verb urlStr : String)
    (header : Option Header) (req : Request) (resp : Response)
    (hreq : env.NewRequest verb urlStr = Except.ok req)
    (hdo : env.Do (setHeader req header) = Except.ok resp)
    (hcode : 511 < resp.StatusCode) :
    tritonAnonRequest env verb urlStr header = (some resp, none) := by
  have h : ¬ (resp.StatusCode ≥ 400 ∧ resp.StatusCode ≤ 511) := by omega
  simp only [tritonAnonRequest, hreq, hdo]
  rw [if_neg h]

/-- C5: at a response with status 512 (a 5XX code) and an empty body, `tritonAnonRequest`
returns the response itself and a nil error: the response is treated as a success, and
no error carrying the status code is produced. -/
theorem tritonAnonRequest_512_empty_body_is_success :
    resp512Empty.StatusCode = 512 ∧ ReadAll resp512Empty.Body = ([], none) ∧
      tritonAnonRequest (replyEnv resp512Empty) "HEAD" "https://us-east.manta.joyent.com/u"
        none = (some resp512Empty, none) := by
  refine ⟨rfl, rfl, ?_⟩
  simp [tritonAnonRequest, replyEnv, setHeader, resp512Empty]

/-- C6: at a response with status 520 (a 5XX code) whose non-empty body the XML decoder
rejects, `tritonAnonRequest` returns the response itself and a nil error. -/
theorem tritonAnonRequest_520_malformed_body_is_success :
    resp520Oops.StatusCode = 520 ∧ ReadAll resp520Oops.Body = (oopsBytes, none) ∧
      oopsBytes ≠ [] ∧
      (replyEnv resp520Oops).xmlUnmarshal oopsBytes {} = Except.error (GoError.lib "EOF") ∧
      tritonAnonRequest (replyEnv resp520Oops) "GET" "https://us-east.manta.joyent.com/u"
        none = (some resp520Oops, none) := by
  refine ⟨rfl, rfl, by decide, rfl, ?_⟩
  simp [tritonAnonRequest, replyEnv, setHeader, resp520Oops]

/-- C7: at a response with status 599, inside the range 400 to 599, `tritonAnonRequest`
returns the response and a nil error, also when the body holds a structured error. -/
theorem tritonAnonRequest_599_is_success :
    (400 ≤ resp599.StatusCode ∧ resp599.StatusCode ≤ 599) ∧
      (tritonAnonRequest (replyEnvXML resp599) "GET" "https://us-east.manta.joyent.com/u"
        none).1 = some resp599 ∧
      (tritonAnonRequest (replyEnvXML resp599) "GET" "https://us-east.manta.joyent.com/u"
        none).2 = none := by
  refine ⟨by decide, ?_, ?_⟩ <;>
    simp [tritonAnonRequest, replyEnvXML, setHeader, resp599]

/-- C10: whatever the transport does, `tritonAnonRequest` returns exactly one of a
response and an error; a returned response is the value the transport gave for the request
built from the verb, the URL and the header, and its status code is below 400 or above
511. -/
theorem tritonAnonRequest_response_xor_error (env : HTTPEnv) (verb urlStr : String)
    (header : Option Header) :
    ((tritonAnonRequest env verb urlStr header).1.isSome = true ↔
        (tritonAnonRequest env verb urlStr header).2 = none) ∧
      ∀ resp : Response, (tritonAnonRequest env verb urlStr header).1 = some resp →
        (∃ req : Request, env.NewRequest verb urlStr = Except.ok req ∧
          env.Do (setHeader req header) = Except.ok resp) ∧
        (resp.StatusCode < 400 ∨ resp.StatusCode > 511) := by
  rcases hreq : env.NewRequest verb urlStr with e | req
  · simp [tritonAnonRequest, hreq]
  · rcases hdo : env.Do (setHeader req header) with e | resp
    · simp [tritonAnonRequest, hreq, hdo]
    · by_cases hcode : resp.StatusCode ≥ 400 ∧ resp.StatusCode ≤ 511
      · have h := tritonAnonRequest_error_range env verb urlStr header req resp hreq hdo
          hcode.1 hcode.2
        refine ⟨?_, ?_⟩
        · rw [h.1]
          simp [h.2]
        · intro r hr
          rw [h.1] at hr
          cases hr
      · have h : tritonAnonRequest env verb urlStr header = (some resp, none) := by
          simp only [tritonAnonRequest, hreq, hdo]
          rw [if_neg hcode]
        rw [h]
        refine ⟨by simp, ?_⟩
        intro r hr
        simp only [Option.some.injEq] at hr
        subst hr
        exact ⟨⟨req, rfl, hdo⟩, by omega⟩

/-! ## Operations answered without the backend -/

/-- C1: `AnonPutObject` returns the empty `ObjectInfo` and an error whose cause is
`NotImplemented{}`, for every input, and leaves the backend alone; its error is never
nil. -/
theorem AnonPutObject_not_implemented {σ : Type} (a : tritonObjects σ)
    (bucket object : String) (size : Int) (data : Reader) (metadata : List (String × String))
    (sha256sum : String) (w : World σ) :
    (a.AnonPutObject bucket object size data metadata sha256sum w).1.1 = ({} : ObjectInfo) ∧
      isNotImplemented (a.AnonPutObject bucket object size data metadata sha256sum w).1.2
        = true ∧
      (a.AnonPutObject bucket object size data metadata sha256sum w).1.2 ≠ none ∧
      (a.AnonPutObject bucket object size data metadata sha256sum w).2 = w := by
  simp [tritonObjects.AnonPutObject, traceError, isNotImplemented, errorCause]

/-- C9: `CopyObjectPart` returns the zero `PartInfo` and an error whose cause is
`NotImplemented{}`, for every input, and leaves the backend alone. -/
theorem CopyObjectPart_not_implemented {σ : Type} (a : tritonObjects σ)
    (srcBucket srcObject destBucket destObject uploadID : String) (partID : Int)
    (startOffset length : Int) (w : World σ) :
    (a.CopyObjectPart srcBucket srcObject destBucket destObject uploadID partID startOffset
        length w).1.1 = ({} : PartInfo) ∧
      isNotImplemented (a.CopyObjectPart srcBucket srcObject destBucket destObject uploadID
        partID startOffset length w).1.2 = true ∧
      (a.CopyObjectPart srcBucket srcObject destBucket destObject uploadID partID startOffset
        length w).1.2 ≠ none ∧
      (a.CopyObjectPart srcBucket srcObject destBucket destObject uploadID partID startOffset
        length w).2 = w := by
  simp [tritonObjects.CopyObjectPart, traceError, isNotImplemented, errorCause]

/-- C3: `MakeBucketWithLocation` adds exactly one request to the log of backend calls, the
directory put for `~~/stor/` followed by the bucket name, whatever the location; it leaves
the backend as that put leaves it and returns what that put returns: nil exactly when the
put returned nil, and the error of the put otherwise. -/
theorem MakeBucketWithLocation_one_put {σ : Type} (t : tritonObjects σ)
    (bucket location : String) (w : World σ) :
    (t.MakeBucketWithLocation bucket location w).2.calls =
        w.calls ++ [BackendCall.DirPut { DirectoryName := "~~/stor/" ++ bucket }] ∧
      (t.MakeBucketWithLocation bucket location w).2.backend =
        (t.client.DirPut { DirectoryName := "~~/stor/" ++ bucket } w.backend).2 ∧
      (t.MakeBucketWithLocation bucket location w).1 =
        (t.client.DirPut { DirectoryName := "~~/stor/" ++ bucket } w.backend).1 ∧
      ((t.MakeBucketWithLocation bucket location w).1 = none ↔
        (t.client.DirPut { DirectoryName := "~~/stor/" ++ bucket } w.backend).1 = none) := by
  have h : (t.MakeBucketWithLocation bucket location w).1 =
      (t.client.DirPut { DirectoryName := "~~/stor/" ++ bucket } w.backend).1 := by
    simp only [tritonObjects.MakeBucketWithLocation, StorageClient.DirPutCall]
    cases (t.client.DirPut { DirectoryName := "~~/stor/" ++ bucket } w.backend).1 <;> rfl
  refine ⟨?_, ?_, h, by rw [h]⟩
  · simp only [tritonObjects.MakeBucketWithLocation, StorageClient.DirPutCall]
    cases (t.client.DirPut { DirectoryName := "~~/stor/" ++ bucket } w.backend).1 <;> rfl
  · simp only [tritonObjects.MakeBucketWithLocation, StorageClient.DirPutCall]
    cases (t.client.DirPut { DirectoryName := "~~/stor/" ++ bucket } w.backend).1 <;> rfl

/-- C2: after bucket `b1` was made, `ListBuckets` returns no bucket and a nil error,
`DeleteBucket` of `b1` and `DeleteObject` of `b1/k1` return a nil error, none of the three
errors is a NotImplemented error, and the directory of `b1` is still on the backend. -/
theorem ListBuckets_DeleteBucket_DeleteObject_return_nil :
    worldB1.backend = ["~~/stor/b1"] ∧
      dirGateway.ListBuckets worldB1 = (([], none), worldB1) ∧
      dirGateway.DeleteBucket "b1" worldB1 = (none, worldB1) ∧
      dirGateway.DeleteObject "b1" "k1" worldB1 = (none, worldB1) ∧
      isNotImplemented (dirGateway.ListBuckets worldB1).1.2 = false ∧
      isNotImplemented (dirGateway.DeleteBucket "b1" worldB1).1 = false ∧
      isNotImplemented (dirGateway.DeleteObject "b1" "k1" worldB1).1 = false :=
  ⟨rfl, rfl, rfl, rfl, rfl, rfl, rfl⟩

/-- C4: `PutObject` of the five bytes `hello` with metadata `x-custom=v` returns a nil
error; then `GetObject` with offset 0 and length 5 returns a nil error and writes nothing
to an empty writer, and `GetObjectInfo` returns the zero `ObjectInfo`, whose metadata does
not hold `x-custom=v`. -/
theorem PutObject_GetObject_hello_not_identity :
    (dirGateway.PutObject "b1" "k1" 5 { data := helloBytes } [("x-custom", "v")] ""
        worldB1).1.2 = none ∧
      (dirGateway.GetObject "b1" "k1" 0 5 [] worldPutK1).1 = (none, []) ∧
      (dirGateway.GetObject "b1" "k1" 0 5 [] worldPutK1).1.2 ≠ helloBytes ∧
      (dirGateway.GetObjectInfo "b1" "k1" worldPutK1).1 = ({}, none) ∧
      ("x-custom", "v") ∉ (dirGateway.GetObjectInfo "b1" "k1" worldPutK1).1.1.UserDefined :=
  ⟨rfl, rfl, by decide, rfl, by decide⟩

/-- C8: in an upload of `b1/k2` where only part 1 was uploaded, `CompleteMultipartUpload`
with a parts list naming part 2 returns the zero `ObjectInfo` and a nil error. -/
theorem CompleteMultipartUpload_unknown_part_returns_nil :
    (dirGateway.NewMultipartUpload "b1" "k2" [] worldB1).1 = ("", none) ∧
      (dirGateway.PutObjectPart "b1" "k2" "" 1 2 { data := [65, 65] } "" ""
        (dirGateway.NewMultipartUpload "b1" "k2" [] worldB1).2).1.2 = none ∧
      dirGateway.CompleteMultipartUpload "b1" "k2" ""
        [{ PartNumber := 2, ETag := "b9fbb99f8b3bf6385a3eb9de7c5ab8a1" }] worldPart1 =
        (({}, none), worldPart1) :=
  ⟨rfl, rfl, rfl⟩

end Triton
